import Mathlib

/-!
Verification of the donationswap matchmaker (src/matchmaker.py) via a
shallow embedding.

The matchmaker runs a periodic batch: a cleanup sweep over stored Offers
and Matches, a greedy pairing pass over eligible Offers, a propose step
that persists new Matches and mails both parties, and a finalize step that
mails the final deal and deletes doubly agreed Matches.

Entities (Offer, Match, reference data) live in an external persistence
collaborator (entities.py, not part of the matching core source). Its
contract is taken from the spec: get_all is predicate filtering, delete
removes a row, create inserts a fully initialised row. Side effects
(row creation/deletion, outgoing mail, dry-run log lines) are modelled as
an explicit effect trace.
-/

/-- Tri-state agreement flag of a Match party: Python True / False / None. -/
inductive Tri where
  | agreed
  | declined
  | undecided
deriving DecidableEq, Repr

structure Currency where
  iso : String
deriving DecidableEq, Repr

structure Country where
  id : Nat
  name : String
  currency : Currency
deriving DecidableEq, Repr

structure Charity where
  id : Nat
  name : String
deriving DecidableEq, Repr

/-- An Offer row, with its resolved charity and country reference data.
Timestamps are in seconds. -/
structure Offer where
  id : Nat
  email : String
  amount : Nat
  charity : Charity
  country : Country
  secret : String
  confirmed : Bool
  created_ts : Int
deriving DecidableEq, Repr

/-- `offer.charity_id` resolves through the charity reference. -/
def Offer.charity_id (o : Offer) : Nat := o.charity.id

/-- `offer.country_id` resolves through the country reference. -/
def Offer.country_id (o : Offer) : Nat := o.country.id

/-- A Match row, with its two resolved Offers. -/
structure Match where
  id : Nat
  secret : String
  new_offer : Offer
  old_offer : Offer
  new_agrees : Tri
  old_agrees : Tri
  created_ts : Int
deriving DecidableEq, Repr

/-- The persisted state the matchmaker reads and mutates: the Offer and
Match tables, plus the id the store would assign to the next Match row. -/
structure DB where
  offers : List Offer
  matchRows : List Match
  nextMatchId : Nat
deriving DecidableEq, Repr

/-- Replacement values in a mail substitution map: the Python code mixes
strings and numeric amounts. -/
inductive TVal where
  | str (s : String)
  | num (n : Nat)
deriving DecidableEq, Repr

/-- One observable side effect of a batch run. -/
inductive Effect where
  | matchCreated (secret : String) (newOfferId oldOfferId : Nat)
  | matchDeleted (id : Nat)
  | offerDeleted (id : Nat)
  | mailSent (subject : String) (recipients : List String) (replacements : List (String × TVal))
  | dryRunPairLogged (offer1Id offer2Id : Nat)
  | dryRunMatchLogged (matchId : Nat)
deriving DecidableEq, Repr

def Effect.isMailSent : Effect → Bool
  | .mailSent .. => true
  | _ => false

def Effect.isMatchCreated : Effect → Bool
  | .matchCreated .. => true
  | _ => false

/-! ## Cleanup predicates (the lambdas of `Matchmaker.clean`) -/

/-- `lambda x: not x.confirmed and x.created_ts + two_days < now`
(48 hours = 172800 seconds). -/
def offerExpired (now : Int) (o : Offer) : Bool :=
  !o.confirmed && decide (o.created_ts + 172800 < now)

/-- `lambda x: x.new_agrees is False or x.old_agrees is False`. -/
def matchDeclined (m : Match) : Bool :=
  m.new_agrees == .declined || m.old_agrees == .declined

/-- `lambda x: x.new_agrees is None or x.old_agrees is None and
x.created_ts + one_week < now`; Python `and` binds tighter than `or`
(one week = 604800 seconds). -/
def matchStale (now : Int) (m : Match) : Bool :=
  m.new_agrees == .undecided ||
    (m.old_agrees == .undecided && decide (m.created_ts + 604800 < now))

/-- `lambda x: x.new_agrees is True and x.old_agrees is True and
x.created_ts + four_weeks < now` (four weeks = 2419200 seconds). -/
def matchAgreedExpired (now : Int) (m : Match) : Bool :=
  m.new_agrees == .agreed && m.old_agrees == .agreed &&
    decide (m.created_ts + 2419200 < now)

/-- `lambda x: x.new_agrees and x.old_agrees` in `process_approved_matches`:
with Python truthiness over {True, False, None} this holds exactly when both
flags are agreed. -/
def matchApproved (m : Match) : Bool :=
  m.new_agrees == .agreed && m.old_agrees == .agreed

/-- `Matchmaker.clean`: four sequential sweeps, each deleting the rows the
corresponding predicate selects. `clean` never consults the dry-run flag.
Modelled from the spec: `entities.*.get_all` (not under src/) returns the
rows satisfying the predicate and `delete` removes a row. -/
def clean (now : Int) (db : DB) : DB × List Effect :=
  let expiredOffers := db.offers.filter (offerExpired now)
  let offers1 := db.offers.filter (fun o => !offerExpired now o)
  let declined := db.matchRows.filter matchDeclined
  let matches1 := db.matchRows.filter (fun m => !matchDeclined m)
  let stale := matches1.filter (matchStale now)
  let matches2 := matches1.filter (fun m => !matchStale now m)
  let agreedExpired := matches2.filter (matchAgreedExpired now)
  let matches3 := matches2.filter (fun m => !matchAgreedExpired now m)
  ({ offers := offers1, matchRows := matches3, nextMatchId := db.nextMatchId },
   expiredOffers.map (fun o => .offerDeleted o.id)
     ++ declined.map (fun m => .matchDeleted m.id)
     ++ stale.map (fun m => .matchDeleted m.id)
     ++ agreedExpired.map (fun m => .matchDeleted m.id))

/-! ## Compatibility rule -/

/-- `Matchmaker._is_good_match`. -/
def isGoodMatch (offer1 offer2 : Offer) : Bool :=
  if offer1.charity_id = offer2.charity_id then false
  else if offer1.country_id = offer2.country_id then false
  else if offer1.email = offer2.email then false
  else true

/-! ## Matching engine -/

/-- The while loop of `Matchmaker.find_matches`, with an explicit fuel
bound on the number of iterations: `offers.pop()` takes the last element,
the inner loop scans the remaining list in order for the first compatible
offer, and `offers.remove(offer2)` deletes the first occurrence equal to
it. Every iteration shortens the working list, so any fuel at least the
list's length reproduces the loop exactly. -/
def findMatchesGo : Nat → List Offer → List (Offer × Offer)
  | 0, _ => []
  | fuel + 1, offers =>
    match offers.getLast? with
    | none => []
    | some offer1 =>
      match offers.dropLast.find? (fun offer2 => isGoodMatch offer1 offer2) with
      | none => findMatchesGo fuel offers.dropLast
      | some offer2 =>
        (offer1, offer2) :: findMatchesGo fuel (offers.dropLast.erase offer2)

/-- `Matchmaker.find_matches` minus the database read. -/
def findMatches (offers : List Offer) : List (Offer × Offer) :=
  findMatchesGo offers.length offers

/-- Modelled from the spec: `entities.Offer.get_match_candidates` (not under
src/) returns the pool of eligible Offers: confirmed and not referenced by
any active Match. -/
def getMatchCandidates (db : DB) : List Offer :=
  db.offers.filter (fun o =>
    o.confirmed &&
      !(db.matchRows.any (fun m => m.new_offer.id == o.id || m.old_offer.id == o.id)))

/-! ## Propose: `process_found_matches` and `_send_mail_about_match` -/

/-- Substitution map of `_send_mail_about_match`. `convert` is the external
currency collaborator, `(convert amount fromIso toIso)`. The counterpart's
email address is deliberately absent from the map. -/
def matchReplacements (convert : Nat → String → String → Nat)
    (my their : Offer) (matchSecret : String) : List (String × TVal) :=
  let your_amount_in_their_currency :=
    convert their.amount their.country.currency.iso my.country.currency.iso
  [("\x7b%YOUR_COUNTRY%\x7d", .str my.country.name),
   ("\x7b%YOUR_CHARITY%\x7d", .str my.charity.name),
   ("\x7b%YOUR_AMOUNT%\x7d", .num my.amount),
   ("\x7b%YOUR_CURRENCY%\x7d", .str my.country.currency.iso),
   ("\x7b%THEIR_COUNTRY%\x7d", .str their.country.name),
   ("\x7b%THEIR_CHARITY%\x7d", .str their.charity.name),
   ("\x7b%THEIR_AMOUNT%\x7d", .num their.amount),
   ("\x7b%THEIR_CURRENCY%\x7d", .str their.country.currency.iso),
   ("\x7b%THEIR_AMOUNT_CONVERTED%\x7d", .num your_amount_in_their_currency),
   ("\x7b%SECRET%\x7d", .str (my.secret ++ matchSecret))]

/-- `_send_mail_about_match`: one mail to the owner of `my`. -/
def sendMailAboutMatch (convert : Nat → String → String → Nat)
    (my their : Offer) (matchSecret : String) : Effect :=
  .mailSent "We may have found a matching donation for you" [my.email]
    (matchReplacements convert my their matchSecret)

/-- Modelled from the spec: `entities.Match.create` (not under src/) persists
a new Match row referencing both offers, with both agreement flags undecided,
a store-assigned id and the store's current timestamp. -/
def matchCreate (db : DB) (secret : String) (newOffer oldOffer : Offer)
    (now : Int) : DB :=
  { db with
      matchRows := db.matchRows ++
        [{ id := db.nextMatchId, secret := secret, new_offer := newOffer,
           old_offer := oldOffer, new_agrees := .undecided,
           old_agrees := .undecided, created_ts := now }],
      nextMatchId := db.nextMatchId + 1 }

/-- `process_found_matches`: per pair, in dry-run mode only a log line;
otherwise pick old/new by creation timestamp (earlier = old), create the
Match row, then mail the old party and the new party. `secrets` supplies
the opaque tokens `donationswap.create_secret` would generate. -/
def processFoundMatches (dryRun : Bool) (convert : Nat → String → String → Nat)
    (now : Int) : List String → List (Offer × Offer) → DB → DB × List Effect
  | _, [], db => (db, [])
  | secrets, (offer1, offer2) :: rest, db =>
    if dryRun then
      let step := processFoundMatches dryRun convert now secrets rest db
      (step.1, .dryRunPairLogged offer1.id offer2.id :: step.2)
    else
      let matchSecret := secrets.headD ""
      let oldOffer := if offer1.created_ts < offer2.created_ts then offer1 else offer2
      let newOffer := if offer1.created_ts < offer2.created_ts then offer2 else offer1
      let db1 := matchCreate db matchSecret newOffer oldOffer now
      let step := processFoundMatches dryRun convert now secrets.tail rest db1
      (step.1,
        Effect.matchCreated matchSecret newOffer.id oldOffer.id
          :: sendMailAboutMatch convert oldOffer newOffer matchSecret
          :: sendMailAboutMatch convert newOffer oldOffer matchSecret
          :: step.2)

/-! ## Finalize: `process_approved_matches` and `_send_mail_about_deal` -/

/-- The fixed placeholder used when no localized instructions exist. -/
def noInstructions : String := "Sorry, there are no instructions available (yet)."

/-- Substitution map of `_send_mail_about_deal`. `lookup` is
`entities.CharityInCountry.by_charity_and_country_id` (charity id, country
id) returning the instructions text when a record exists. Both instruction
lookups use the NEW offer's country id, as in the source. -/
def dealReplacements (convert : Nat → String → String → Nat)
    (lookup : Nat → Nat → Option String) (oldOffer newOffer : Offer) :
    List (String × TVal) :=
  let old_amount_in_new_currency :=
    convert oldOffer.amount oldOffer.country.currency.iso newOffer.country.currency.iso
  let new_amount_in_old_currency :=
    convert newOffer.amount newOffer.country.currency.iso oldOffer.country.currency.iso
  let old_instructions :=
    (lookup newOffer.charity.id newOffer.country.id).getD noInstructions
  let new_instructions :=
    (lookup oldOffer.charity.id newOffer.country.id).getD noInstructions
  [("\x7b%OLD_COUNTRY%\x7d", .str oldOffer.country.name),
   ("\x7b%OLD_CHARITY%\x7d", .str oldOffer.charity.name),
   ("\x7b%OLD_AMOUNT%\x7d", .num oldOffer.amount),
   ("\x7b%OLD_CURRENCY%\x7d", .str oldOffer.country.currency.iso),
   ("\x7b%OLD_EMAIL%\x7d", .str oldOffer.email),
   ("\x7b%OLD_AMOUNT_CONVERTED%\x7d", .num old_amount_in_new_currency),
   ("\x7b%OLD_INSTRUCTIONS%\x7d", .str old_instructions),
   ("\x7b%NEW_COUNTRY%\x7d", .str newOffer.country.name),
   ("\x7b%NEW_CHARITY%\x7d", .str newOffer.charity.name),
   ("\x7b%NEW_AMOUNT%\x7d", .num newOffer.amount),
   ("\x7b%NEW_CURRENCY%\x7d", .str newOffer.country.currency.iso),
   ("\x7b%NEW_EMAIL%\x7d", .str newOffer.email),
   ("\x7b%NEW_AMOUNT_CONVERTED%\x7d", .num new_amount_in_old_currency),
   ("\x7b%NEW_INSTRUCTIONS%\x7d", .str new_instructions)]

/-- `_send_mail_about_deal`: one mail addressed to both parties. -/
def sendMailAboutDeal (convert : Nat → String → String → Nat)
    (lookup : Nat → Nat → Option String) (oldOffer newOffer : Offer) : Effect :=
  .mailSent "Here is your match!" [oldOffer.email, newOffer.email]
    (dealReplacements convert lookup oldOffer newOffer)

/-- Modelled from the spec: `match.delete(db)` (entities, not under src/)
removes the Match row by id. -/
def matchDelete (db : DB) (m : Match) : DB :=
  { db with matchRows := db.matchRows.filter (fun x => x.id != m.id) }

/-- The loop body of `process_approved_matches` over the selected rows:
per row, in dry-run mode only a log line; otherwise the deal mail is sent
and then the row is deleted (send happens before delete). -/
def runApprovedMatches (dryRun : Bool) (convert : Nat → String → String → Nat)
    (lookup : Nat → Nat → Option String) : List Match → DB → DB × List Effect
  | [], db => (db, [])
  | m :: rest, db =>
    if dryRun then
      let step := runApprovedMatches dryRun convert lookup rest db
      (step.1, .dryRunMatchLogged m.id :: step.2)
    else
      let db1 := matchDelete db m
      let step := runApprovedMatches dryRun convert lookup rest db1
      (step.1,
        sendMailAboutDeal convert lookup m.old_offer m.new_offer
          :: Effect.matchDeleted m.id :: step.2)

/-- `process_approved_matches`: select every Match with both flags agreed,
then run the loop body over them. -/
def processApprovedMatches (dryRun : Bool) (convert : Nat → String → String → Nat)
    (lookup : Nat → Nat → Option String) (db : DB) : DB × List Effect :=
  runApprovedMatches dryRun convert lookup (db.matchRows.filter matchApproved) db

/-! ## The batch entry point (`main` after argument parsing) -/

/-- `main`: clean, find matches among the post-cleanup candidates, propose,
then finalize. `dryRun` is `not args.doit`. -/
def mainRun (dryRun : Bool) (convert : Nat → String → String → Nat)
    (lookup : Nat → Nat → Option String) (secrets : List String)
    (now : Int) (db : DB) : DB × List Effect :=
  let cleaned := clean now db
  let pairs := findMatches (getMatchCandidates cleaned.1)
  let proposed := processFoundMatches dryRun convert now secrets pairs cleaned.1
  let finalized := processApprovedMatches dryRun convert lookup proposed.1
  (finalized.1, cleaned.2 ++ proposed.2 ++ finalized.2)

/-! ## Concrete fixtures used by witnesses and counterexamples -/

def charity1 : Charity := ⟨1, "Charity One"⟩
def charity2 : Charity := ⟨2, "Charity Two"⟩
def countryNZ : Country := ⟨1, "New Zealand", ⟨"NZD"⟩⟩
def countryDE : Country := ⟨2, "Germany", ⟨"EUR"⟩⟩
def countryFR : Country := ⟨3, "France", ⟨"EUR"⟩⟩

def offerA : Offer := ⟨1, "a@example.com", 100, charity1, countryNZ, "sA", true, 0⟩
def offerB : Offer := ⟨2, "b@example.com", 200, charity2, countryDE, "sB", true, 432000⟩
def offerC : Offer := ⟨3, "c@example.com", 300, charity1, countryFR, "sC", true, 86400⟩

/-- An unconfirmed Offer created at time 0. -/
def offerUnconfirmed0 : Offer := ⟨4, "d@example.com", 50, charity2, countryFR, "sD", false, 0⟩

def db0 : DB := ⟨[offerUnconfirmed0], [], 1⟩

def convert0 : Nat → String → String → Nat := fun a _ _ => a
def lookup0 : Nat → Nat → Option String := fun _ _ => none

def mStale0 : Match := ⟨7, "ms", offerA, offerB, .undecided, .agreed, 0⟩
def dbStale0 : DB := ⟨[], [mStale0], 8⟩

def mDeal0 : Match := ⟨9, "md", offerB, offerA, .agreed, .agreed, 0⟩
def dbDeal0 : DB := ⟨[], [mDeal0], 10⟩

/-! ## Theorems -/

/-- C4: `_is_good_match` returns false exactly when the two offers share a
charity identifier, a country identifier, or an owner email, and returns
true otherwise; pledge amounts are not compared (the result is invariant
under any change of either amount); and the predicate is symmetric. -/
theorem is_good_match_characterization :
    ∀ a b : Offer,
      (isGoodMatch a b = false ↔
        (a.charity_id = b.charity_id ∨ a.country_id = b.country_id ∨
          a.email = b.email)) ∧
      isGoodMatch a b = isGoodMatch b a ∧
      (∀ x y : Nat,
        isGoodMatch { a with amount := x } { b with amount := y } =
          isGoodMatch a b) := by
  intro a b
  refine ⟨?_, ?_, fun x y => rfl⟩
  · by_cases h1 : a.charity_id = b.charity_id <;>
      by_cases h2 : a.country_id = b.country_id <;>
      by_cases h3 : a.email = b.email <;>
      simp [isGoodMatch, h1, h2, h3]
  · by_cases h1 : a.charity_id = b.charity_id <;>
      by_cases h2 : a.country_id = b.country_id <;>
      by_cases h3 : a.email = b.email <;>
      simp [isGoodMatch, h1, h2, h3, eq_comm]

/-- C6: the cleanup pass deletes an Offer exactly when it is unconfirmed and
strictly older than 48 hours: characterization of the predicate, survival
in `clean` exactly for non-expired Offers, the two one-second boundary
instances, and immunity of confirmed Offers regardless of age. -/
theorem offer_expired_characterization :
    (∀ (now : Int) (o : Offer),
      (offerExpired now o = true ↔
        (o.confirmed = false ∧ o.created_ts + 172800 < now))) ∧
    (∀ (now : Int) (db : DB) (o : Offer),
      (o ∈ ((clean now db).1).offers ↔
        (o ∈ db.offers ∧ offerExpired now o = false))) ∧
    (∀ (now : Int) (id amt : Nat) (em sec : String) (ch : Charity) (co : Country),
      offerExpired now
        { id := id, email := em, amount := amt, charity := ch, country := co,
          secret := sec, confirmed := false, created_ts := now - 172799 } = false ∧
      offerExpired now
        { id := id, email := em, amount := amt, charity := ch, country := co,
          secret := sec, confirmed := false, created_ts := now - 172801 } = true) ∧
    (∀ (now created : Int) (id amt : Nat) (em sec : String) (ch : Charity)
        (co : Country),
      offerExpired now
        { id := id, email := em, amount := amt, charity := ch, country := co,
          secret := sec, confirmed := true, created_ts := created } = false) := by
  refine ⟨?_, ?_, ?_, ?_⟩
  · intro now o
    simp [offerExpired]
  · intro now db o
    simp [clean, List.mem_filter]
  · intro now id amt em sec ch co
    constructor <;> simp [offerExpired] <;> omega
  · intro now created id amt em sec ch co
    simp [offerExpired]

/-- C2: the stale-match predicate of the cleanup pass holds exactly when
`new_agrees` is undecided, or `old_agrees` is undecided and the Match is
strictly older than one week (the asymmetric precedence of Python
`or`/`and`); a stale Match present in the store does not survive `clean`;
and the two one-hour boundary instances around seven days. -/
theorem match_stale_characterization :
    (∀ (now : Int) (m : Match),
      (matchStale now m = true ↔
        (m.new_agrees = Tri.undecided ∨
          (m.old_agrees = Tri.undecided ∧ m.created_ts + 604800 < now)))) ∧
    (∀ (now : Int) (db : DB) (m : Match),
      m ∈ db.matchRows → matchStale now m = true →
        m ∉ ((clean now db).1).matchRows) ∧
    (∀ (now : Int) (id : Nat) (sec : String) (nOff oOff : Offer),
      matchStale now
        { id := id, secret := sec, new_offer := nOff, old_offer := oOff,
          new_agrees := .agreed, old_agrees := .undecided,
          created_ts := now - 601200 } = false ∧
      matchStale now
        { id := id, secret := sec, new_offer := nOff, old_offer := oOff,
          new_agrees := .agreed, old_agrees := .undecided,
          created_ts := now - 608400 } = true) := by
  refine ⟨?_, ?_, ?_⟩
  · intro now m
    simp [matchStale]
  · intro now db m hmem hstale hsurv
    simp [clean, List.mem_filter, hstale] at hsurv
  · intro now id sec nOff oOff
    constructor <;> simp [matchStale] <;> omega

/-- C2 witness at a concrete store: the stale fixture Match is deleted. -/
theorem match_stale_characterization_witness :
    mStale0 ∉ ((clean 700000 dbStale0).1).matchRows :=
  match_stale_characterization.2.1 700000 dbStale0 mStale0 (by decide) (by decide)

/-- Helper: the Match table left by the finalize loop body is the input
table minus the ids of the processed rows. -/
theorem runApprovedMatches_matchRows (convert : Nat → String → String → Nat)
    (lookup : Nat → Nat → Option String) :
    ∀ (ms : List Match) (db : DB),
      (runApprovedMatches false convert lookup ms db).1.matchRows =
        db.matchRows.filter (fun x => ms.all (fun m => x.id != m.id)) := by
  intro ms
  induction ms with
  | nil => intro db; simp [runApprovedMatches]
  | cons m rest ih =>
      intro db
      simp only [runApprovedMatches, Bool.false_eq_true, if_false, ih,
        matchDelete, List.filter_filter]
      apply List.filter_congr
      intro x _
      simp [Bool.and_comm]

/-- Helper: the finalize loop body leaves the Offer table untouched. -/
theorem runApprovedMatches_offers (convert : Nat → String → String → Nat)
    (lookup : Nat → Nat → Option String) :
    ∀ (ms : List Match) (db : DB),
      (runApprovedMatches false convert lookup ms db).1.offers = db.offers := by
  intro ms
  induction ms with
  | nil => intro db; simp [runApprovedMatches]
  | cons m rest ih => intro db; simp [runApprovedMatches, ih, matchDelete]

/-- Helper: the finalize loop body keeps the store's next Match id. -/
theorem runApprovedMatches_nextMatchId (convert : Nat → String → String → Nat)
    (lookup : Nat → Nat → Option String) :
    ∀ (ms : List Match) (db : DB),
      (runApprovedMatches false convert lookup ms db).1.nextMatchId =
        db.nextMatchId := by
  intro ms
  induction ms with
  | nil => intro db; simp [runApprovedMatches]
  | cons m rest ih => intro db; simp [runApprovedMatches, ih, matchDelete]

/-- Helper: the effect trace of the finalize loop body is, per processed
row in order, the deal mail followed by the row deletion. -/
theorem runApprovedMatches_effects (convert : Nat → String → String → Nat)
    (lookup : Nat → Nat → Option String) :
    ∀ (ms : List Match) (db : DB),
      (runApprovedMatches false convert lookup ms db).2 =
        ms.flatMap (fun m =>
          [sendMailAboutDeal convert lookup m.old_offer m.new_offer,
           Effect.matchDeleted m.id]) := by
  intro ms
  induction ms with
  | nil => intro db; simp [runApprovedMatches]
  | cons m rest ih => intro db; simp [runApprovedMatches, ih]

/-- Helper: after one non-dry finalize run no approved Match remains. -/
theorem processApprovedMatches_clears (convert : Nat → String → String → Nat)
    (lookup : Nat → Nat → Option String) (db : DB) :
    ((processApprovedMatches false convert lookup db).1.matchRows.filter
        matchApproved) = [] := by
  rw [processApprovedMatches, runApprovedMatches_matchRows]
  rw [List.filter_filter, List.filter_eq_nil_iff]
  intro x hx
  simp only [Bool.and_eq_true, List.all_eq_true]
  rintro ⟨happ, hall⟩
  have := hall x (List.mem_filter.mpr ⟨hx, happ⟩)
  simp at this

/-- C7: finalize is idempotent: a second non-dry run of
`process_approved_matches` immediately after a first one, with no
intervening state change, selects no Match, deletes nothing and sends no
deal notification. -/
theorem finalize_idempotent (convert : Nat → String → String → Nat)
    (lookup : Nat → Nat → Option String) (db : DB) :
    processApprovedMatches false convert lookup
        (processApprovedMatches false convert lookup db).1 =
      ((processApprovedMatches false convert lookup db).1, []) := by
  rw [processApprovedMatches, processApprovedMatches_clears]
  simp [runApprovedMatches]

/-- C8: per approved Match, finalize emits exactly one deal mail, addressed
jointly to the old and the new party, and emits it immediately before the
deletion of that Match row: the whole effect trace is the concatenation,
over the selected rows, of the mail followed by the deletion. -/
theorem finalize_send_before_delete (convert : Nat → String → String → Nat)
    (lookup : Nat → Nat → Option String) (db : DB) :
    (processApprovedMatches false convert lookup db).2 =
      (db.matchRows.filter matchApproved).flatMap (fun m =>
        [Effect.mailSent "Here is your match!"
            [m.old_offer.email, m.new_offer.email]
            (dealReplacements convert lookup m.old_offer m.new_offer),
         Effect.matchDeleted m.id]) := by
  rw [processApprovedMatches, runApprovedMatches_effects]
  rfl

/-- C9: when the CharityInCountry lookup finds no record, the corresponding
instructions field of the deal substitution map is the fixed placeholder
string, and the deal mail is still produced, addressed to both parties,
with that map — a missing localized-instructions record never suppresses
the send. -/
theorem deal_missing_instructions_placeholder
    (convert : Nat → String → String → Nat)
    (lookup : Nat → Nat → Option String) (oldOffer newOffer : Offer) :
    (lookup newOffer.charity.id newOffer.country.id = none →
      (dealReplacements convert lookup oldOffer newOffer).lookup
          "\x7b%OLD_INSTRUCTIONS%\x7d" = some (.str noInstructions)) ∧
    (lookup oldOffer.charity.id newOffer.country.id = none →
      (dealReplacements convert lookup oldOffer newOffer).lookup
          "\x7b%NEW_INSTRUCTIONS%\x7d" = some (.str noInstructions)) ∧
    sendMailAboutDeal convert lookup oldOffer newOffer =
      .mailSent "Here is your match!" [oldOffer.email, newOffer.email]
        (dealReplacements convert lookup oldOffer newOffer) := by
  refine ⟨?_, ?_, rfl⟩
  · intro h
    simp [dealReplacements, List.lookup, h]
  · intro h
    simp [dealReplacements, List.lookup, h]

/-- C9 witness at a concrete input: with a lookup returning no record, both
instruction fields are the placeholder and the deal mail carries it. -/
theorem deal_missing_instructions_placeholder_witness :
    (dealReplacements convert0 lookup0 offerA offerB).lookup
        "\x7b%OLD_INSTRUCTIONS%\x7d" = some (.str noInstructions) ∧
    (dealReplacements convert0 lookup0 offerA offerB).lookup
        "\x7b%NEW_INSTRUCTIONS%\x7d" = some (.str noInstructions) :=
  ⟨(deal_missing_instructions_placeholder convert0 lookup0 offerA offerB).1 rfl,
   (deal_missing_instructions_placeholder convert0 lookup0 offerA offerB).2.1 rfl⟩

/-- C10: both localized-instruction fields of the deal substitution map are
looked up under the NEW offer's country id — the old party's instructions
by (new charity, new country), the new party's by (old charity, new
country) — and neither field depends on the old offer's country. -/
theorem deal_instructions_use_new_country
    (convert : Nat → String → String → Nat)
    (lookup : Nat → Nat → Option String) (oldOffer newOffer : Offer) :
    ((dealReplacements convert lookup oldOffer newOffer).lookup
        "\x7b%OLD_INSTRUCTIONS%\x7d" =
      some (.str ((lookup newOffer.charity.id newOffer.country.id).getD
        noInstructions))) ∧
    ((dealReplacements convert lookup oldOffer newOffer).lookup
        "\x7b%NEW_INSTRUCTIONS%\x7d" =
      some (.str ((lookup oldOffer.charity.id newOffer.country.id).getD
        noInstructions))) ∧
    (∀ c : Country,
      (dealReplacements convert lookup { oldOffer with country := c } newOffer).lookup
          "\x7b%OLD_INSTRUCTIONS%\x7d" =
        (dealReplacements convert lookup oldOffer newOffer).lookup
          "\x7b%OLD_INSTRUCTIONS%\x7d" ∧
      (dealReplacements convert lookup { oldOffer with country := c } newOffer).lookup
          "\x7b%NEW_INSTRUCTIONS%\x7d" =
        (dealReplacements convert lookup oldOffer newOffer).lookup
          "\x7b%NEW_INSTRUCTIONS%\x7d") := by
  refine ⟨?_, ?_, ?_⟩
  · simp [dealReplacements, List.lookup]
  · simp [dealReplacements, List.lookup]
  · intro c
    constructor <;> simp [dealReplacements, List.lookup]

/-- C5: non-dry propose on one pair of Offers with distinct creation
timestamps: the earlier Offer becomes the old one, exactly one Match row is
created referencing both with both agreement flags undecided, exactly two
suggested-match mails are dispatched — first to the old party, then to the
new party — and neither substitution map depends on (hence discloses) the
counterpart's email address. -/
theorem propose_pair_effects (convert : Nat → String → String → Nat)
    (now : Int) (sec : String) (db : DB) (offer1 offer2 : Offer)
    (hne : offer1.created_ts ≠ offer2.created_ts) :
    let oldOffer := if offer1.created_ts < offer2.created_ts then offer1 else offer2
    let newOffer := if offer1.created_ts < offer2.created_ts then offer2 else offer1
    oldOffer.created_ts < newOffer.created_ts ∧
    processFoundMatches false convert now [sec] [(offer1, offer2)] db =
      ({ db with
          matchRows := db.matchRows ++
            [{ id := db.nextMatchId, secret := sec, new_offer := newOffer,
               old_offer := oldOffer, new_agrees := .undecided,
               old_agrees := .undecided, created_ts := now }],
          nextMatchId := db.nextMatchId + 1 },
       [Effect.matchCreated sec newOffer.id oldOffer.id,
        Effect.mailSent "We may have found a matching donation for you"
          [oldOffer.email] (matchReplacements convert oldOffer newOffer sec),
        Effect.mailSent "We may have found a matching donation for you"
          [newOffer.email] (matchReplacements convert newOffer oldOffer sec)]) ∧
    (∀ e : String,
      matchReplacements convert oldOffer { newOffer with email := e } sec =
        matchReplacements convert oldOffer newOffer sec) ∧
    (∀ e : String,
      matchReplacements convert newOffer { oldOffer with email := e } sec =
        matchReplacements convert newOffer oldOffer sec) := by
  intro oldOffer newOffer
  refine ⟨?_, ?_, fun e => rfl, fun e => rfl⟩
  · by_cases hlt : offer1.created_ts < offer2.created_ts
    · simp only [oldOffer, newOffer, if_pos hlt]
      exact hlt
    · simp only [oldOffer, newOffer, if_neg hlt]
      omega
  · by_cases hlt : offer1.created_ts < offer2.created_ts <;>
      simp [processFoundMatches, matchCreate, sendMailAboutMatch, oldOffer,
        newOffer, hlt]

/-- C5 witness at concrete Offers (offerA created at 0, offerB at 432000):
old = offerA, new = offerB, one undecided Match row, two suggested mails. -/
theorem propose_pair_effects_witness :
    offerA.created_ts < offerB.created_ts ∧
    processFoundMatches false convert0 500000 ["t"] [(offerA, offerB)] db0 =
      ({ db0 with
          matchRows := db0.matchRows ++
            [{ id := db0.nextMatchId, secret := "t", new_offer := offerB,
               old_offer := offerA, new_agrees := .undecided,
               old_agrees := .undecided, created_ts := 500000 }],
          nextMatchId := db0.nextMatchId + 1 },
       [Effect.matchCreated "t" offerB.id offerA.id,
        Effect.mailSent "We may have found a matching donation for you"
          [offerA.email] (matchReplacements convert0 offerA offerB "t"),
        Effect.mailSent "We may have found a matching donation for you"
          [offerB.email] (matchReplacements convert0 offerB offerA "t")]) := by
  have h := propose_pair_effects convert0 500000 "t" db0 offerA offerB
    (by decide)
  have hlt : offerA.created_ts < offerB.created_ts := by decide
  simp only [if_pos hlt] at h
  exact ⟨h.1, h.2.1⟩

/-- Helper: in dry-run mode the propose step leaves the store untouched and
only logs one line per found pair. -/
theorem processFoundMatches_dry (convert : Nat → String → String → Nat)
    (now : Int) :
    ∀ (secrets : List String) (pairs : List (Offer × Offer)) (db : DB),
      processFoundMatches true convert now secrets pairs db =
        (db, pairs.map (fun p => .dryRunPairLogged p.1.id p.2.id)) := by
  intro secrets pairs
  induction pairs generalizing secrets with
  | nil => intro db; simp [processFoundMatches]
  | cons p rest ih =>
      intro db
      obtain ⟨offer1, offer2⟩ := p
      simp [processFoundMatches, ih]

/-- Helper: in dry-run mode the finalize loop body leaves the store
untouched and only logs one line per selected Match. -/
theorem runApprovedMatches_dry (convert : Nat → String → String → Nat)
    (lookup : Nat → Nat → Option String) :
    ∀ (ms : List Match) (db : DB),
      runApprovedMatches true convert lookup ms db =
        (db, ms.map (fun m => .dryRunMatchLogged m.id)) := by
  intro ms
  induction ms with
  | nil => intro db; simp [runApprovedMatches]
  | cons m rest ih => intro db; simp [runApprovedMatches, ih]

/-- Helper: a dry batch run performs exactly the cleanup mutation; every
further trace entry is a dry-run log line for a found pair or a selected
approved Match. -/
theorem mainRun_dry (convert : Nat → String → String → Nat)
    (lookup : Nat → Nat → Option String) (secrets : List String)
    (now : Int) (db : DB) :
    mainRun true convert lookup secrets now db =
      ((clean now db).1,
        (clean now db).2
          ++ (findMatches (getMatchCandidates (clean now db).1)).map
              (fun p => .dryRunPairLogged p.1.id p.2.id)
          ++ ((clean now db).1.matchRows.filter matchApproved).map
              (fun m => .dryRunMatchLogged m.id)) := by
  simp [mainRun, processApprovedMatches, processFoundMatches_dry,
    runApprovedMatches_dry]

/-- C1 (amended): with the commit flag unset, propose and finalize are
suppressed — no Match is created, no mail is sent — and the matching
computation still runs (each found pair is logged); but the cleanup sweep
ignores the flag, so the state after the run is the post-cleanup state,
not necessarily the state before. -/
theorem dry_run_suppresses_propose_and_finalize
    (convert : Nat → String → String → Nat)
    (lookup : Nat → Nat → Option String) (secrets : List String)
    (now : Int) (db : DB) :
    mainRun true convert lookup secrets now db =
      ((clean now db).1,
        (clean now db).2
          ++ (findMatches (getMatchCandidates (clean now db).1)).map
              (fun p => .dryRunPairLogged p.1.id p.2.id)
          ++ ((clean now db).1.matchRows.filter matchApproved).map
              (fun m => .dryRunMatchLogged m.id)) ∧
    ∀ e ∈ (mainRun true convert lookup secrets now db).2,
      e.isMailSent = false ∧ e.isMatchCreated = false := by
  refine ⟨mainRun_dry convert lookup secrets now db, ?_⟩
  intro e he
  rw [mainRun_dry] at he
  simp only [clean, List.mem_append, List.mem_map, List.append_assoc] at he
  rcases he with ⟨o, _, rfl⟩ | ⟨m, _, rfl⟩ | ⟨m, _, rfl⟩ | ⟨m, _, rfl⟩ |
    ⟨p, _, rfl⟩ | ⟨m, _, rfl⟩ <;> exact ⟨rfl, rfl⟩

/-- C1 witness: in the concrete dry run every trace entry is neither a mail
nor a Match creation, checked at the Offer-deletion entry. -/
theorem dry_run_suppresses_propose_and_finalize_witness :
    (Effect.offerDeleted 4).isMailSent = false ∧
    (Effect.offerDeleted 4).isMatchCreated = false :=
  (dry_run_suppresses_propose_and_finalize convert0 lookup0 [] 200000 db0).2
    (.offerDeleted 4) (by decide)

/-- C1 counterexample: the claim that a dry run leaves the persisted state
unchanged and deletes no Offer is false — on a store holding one
unconfirmed Offer created 200000 seconds (more than 48 hours) ago, the dry
run deletes it. -/
theorem dry_run_counterexample :
    (mainRun true convert0 lookup0 [] 200000 db0).1 ≠ db0 ∧
    Effect.offerDeleted 4 ∈ (mainRun true convert0 lookup0 [] 200000 db0).2 := by
  decide

/-- Helper: every pair the matching loop emits passes the compatibility
predicate, for any fuel. -/
theorem findMatchesGo_good :
    ∀ (fuel : Nat) (offers : List Offer),
      ∀ p ∈ findMatchesGo fuel offers, isGoodMatch p.1 p.2 = true := by
  intro fuel
  induction fuel with
  | zero => intro offers p hp; simp [findMatchesGo] at hp
  | succ fuel ih =>
      intro offers p hp
      cases hlast : offers.getLast? with
      | none => simp only [findMatchesGo, hlast] at hp; simp at hp
      | some offer1 =>
          cases hfind : offers.dropLast.find?
              (fun offer2 => isGoodMatch offer1 offer2) with
          | none =>
              simp only [findMatchesGo, hlast, hfind] at hp
              exact ih _ p hp
          | some offer2 =>
              simp only [findMatchesGo, hlast, hfind] at hp
              rcases List.mem_cons.mp hp with rfl | hp2
              · exact List.find?_some hfind
              · exact ih _ p hp2

/-- Helper: counting multiplicity, the Offers occurring in the emitted
pairs are drawn from the working list, each occurrence used at most once. -/
theorem findMatchesGo_subperm :
    ∀ (fuel : Nat) (offers : List Offer),
      List.Subperm ((findMatchesGo fuel offers).flatMap fun p => [p.1, p.2])
        offers := by
  intro fuel
  induction fuel with
  | zero => intro offers; simp [findMatchesGo]
  | succ fuel ih =>
      intro offers
      cases hlast : offers.getLast? with
      | none => simp [findMatchesGo, hlast]
      | some offer1 =>
          have hsplit : offers.dropLast ++ [offer1] = offers :=
            List.dropLast_append_getLast? offer1 hlast
          cases hfind : offers.dropLast.find?
              (fun offer2 => isGoodMatch offer1 offer2) with
          | none =>
              simp only [findMatchesGo, hlast, hfind]
              exact (ih offers.dropLast).trans
                (List.dropLast_sublist offers).subperm
          | some offer2 =>
              have hmem : offer2 ∈ offers.dropLast :=
                List.mem_of_find?_eq_some hfind
              have h1 : List.Subperm
                  (offer2 :: ((findMatchesGo fuel
                    (offers.dropLast.erase offer2)).flatMap
                      fun p => [p.1, p.2]))
                  offers.dropLast :=
                ((List.subperm_cons offer2).mpr (ih _)).trans
                  (List.perm_cons_erase hmem).symm.subperm
              have h2 : List.Subperm
                  (offer1 :: offer2 :: ((findMatchesGo fuel
                    (offers.dropLast.erase offer2)).flatMap
                      fun p => [p.1, p.2]))
                  (offer1 :: offers.dropLast) :=
                (List.subperm_cons offer1).mpr h1
              have h3 : List.Perm (offer1 :: offers.dropLast) offers := by
                conv_rhs => rw [← hsplit]
                exact (List.perm_append_singleton offer1 offers.dropLast).symm
              simp only [findMatchesGo, hlast, hfind]
              simpa using h2.trans h3.subperm

/-- Helper: a subpermutation of a duplicate-free list is duplicate-free. -/
theorem nodup_of_subperm {α : Type _} {l1 l2 : List α}
    (h : List.Subperm l1 l2) (hn : l2.Nodup) : l1.Nodup := by
  obtain ⟨l, hperm, hsub⟩ := h
  exact hperm.nodup_iff.mp (hn.sublist hsub)

/-- C3: matching-engine guarantees: every emitted pair is compatible; the
Offers occurring in the emitted pairs form a subpermutation of the input
list (each input occurrence is used at most once, so in particular Offers
with no compatible counterpart are simply left out, with no error); and
for a duplicate-free input no Offer appears in two pairs nor twice in one
pair. -/
theorem find_matches_guarantees (offers : List Offer) :
    (∀ p ∈ findMatches offers, isGoodMatch p.1 p.2 = true) ∧
    List.Subperm ((findMatches offers).flatMap fun p => [p.1, p.2]) offers ∧
    (offers.Nodup →
      ((findMatches offers).flatMap fun p => [p.1, p.2]).Nodup) :=
  ⟨findMatchesGo_good offers.length offers,
   findMatchesGo_subperm offers.length offers,
   fun hn => nodup_of_subperm (findMatchesGo_subperm offers.length offers) hn⟩

/-- C3 witness on the concrete pool [A, B, C]: the emitted pairs use
pairwise distinct Offers. -/
theorem find_matches_guarantees_witness :
    ((findMatches [offerA, offerB, offerC]).flatMap fun p => [p.1, p.2]).Nodup :=
  (find_matches_guarantees [offerA, offerB, offerC]).2.2 (by decide)
